import Mathlib

/-!
Verification of the clwd instance-lifecycle orchestrator.

This file gives a shallow embedding of the parts of the clwd codebase that
the specification's claims are about:

* `src/clwd/providers/__init__.py` — the `Instance` dataclass and its
  `__post_init__` validation (`mkInstance`);
* `src/clwd/utils/config.py` — the persisted project store
  (`addProject`, `getProject`, `updateProject`, `removeProject`,
  `listProjectDetails`) modelled over an association list standing for the
  JSON document, with Python `dict` lookup/insert/delete semantics;
* `src/clwd/utils/ssh.py` — the setup-completion polling loop
  (`waitForSetupCompleteAux`), fuel-indexed because the source loop need
  not terminate;
* `src/clwd/providers/hetzner.py` — the SSH reachability polling loop
  (`waitForSSHAux`) and the cloud-init payload generation
  (`generateCloudInitScript`, `b64encode`);
* `src/clwd/cli/main.py` — the provisioning and destruction orchestration
  (`initAsync`, `destroyAsync`) modelled as pure functions over oracles
  for the external collaborators (provider API, SSH transport, keychain),
  producing a trace of orchestration events, an outcome, and the final
  persisted store.

Effectful collaborators are passed in as explicit parameters (probe
functions, `Except` results, timestamps), so that every definition is
executable and the theorems quantify over all collaborator behaviours.

Time in the polling loops is modelled as the accumulated sleep delays of
the source code (a lower bound on real elapsed time), which is exactly the
quantity the loops' own timeout checks are compared against.
-/

namespace Clwd

/-! ## Data model: providers/__init__.py -/

/-- The `Instance` dataclass from `src/clwd/providers/__init__.py`:
one provisioned remote machine.  `metadata` is an open string-keyed mapping
whose values may be absent (`datacenter` can be `None`). -/
structure Instance where
  id : String
  name : String
  ip : String
  provider : String
  status : String
  created_at : String
  metadata : List (String × Option String)
deriving Repr, DecidableEq

/-- `Instance.__post_init__`: dataclass construction followed by the
validation checks.  Python truthiness `not self.id` on a `str` field is
emptiness.  The source checks `id`, `name`, `ip` and `provider`, in that
order, and raises `ValueError` with the given messages; it performs no
check on `status`. -/
def mkInstance (id name ip provider status created_at : String)
    (metadata : List (String × Option String)) : Except String Instance :=
  if id = "" then .error "Instance ID cannot be empty"
  else if name = "" then .error "Instance name cannot be empty"
  else if ip = "" then .error "Instance IP cannot be empty"
  else if provider = "" then .error "Instance provider cannot be empty"
  else .ok { id := id, name := name, ip := ip, provider := provider,
             status := status, created_at := created_at, metadata := metadata }

/-! ## Project store: utils/config.py

The persisted document `projects.json` is a JSON object mapping project
names to project records; we model it as an association list in insertion
order (Python `dict` preserves insertion order) with the usual dict
operations.  Each store operation in the source is a full
read-modify-write: it loads the document, either raises before any write
(leaving the persisted document untouched) or builds the new document and
saves it.  The `Except` result captures exactly this: `.error` means the
exception was raised before `save_projects` ran. -/

/-- Leading-whitespace removal on a character list. -/
def dropLeadingWs : List Char → List Char
  | [] => []
  | c :: cs => if c.isWhitespace then dropLeadingWs cs else c :: cs

/-- Python `str.strip()`: remove leading and trailing whitespace.  Defined
by structural recursion over the character list so it evaluates by
kernel reduction. -/
def strip (s : String) : String :=
  ⟨((dropLeadingWs ((dropLeadingWs s.data).reverse)).reverse)⟩

/-- One value of the projects document: `asdict(instance)` plus the
bookkeeping keys added by `Config.add_project`. -/
structure ProjectData where
  id : String
  name : String
  ip : String
  provider : String
  status : String
  created_at : String
  metadata : List (String × Option String)
  project_name : String
  added_at : String
  last_accessed : String
deriving Repr, DecidableEq

/-- The persisted projects document. -/
abbrev Store := List (String × ProjectData)

/-- Python `dict.get` / `in`: first binding for a key. -/
def dictLookup : Store → String → Option ProjectData
  | [], _ => none
  | (k, v) :: rest, key => if k = key then some v else dictLookup rest key

/-- Python `projects[name].update(...)` on an existing key: replace the
value at the first binding of the key. -/
def dictSet : Store → String → (ProjectData → ProjectData) → Store
  | [], _, _ => []
  | (k, v) :: rest, key, f =>
      if k = key then (k, f v) :: rest else (k, v) :: dictSet rest key f

/-- Python `del projects[name]`: drop the bindings of the key. -/
def dictErase : Store → String → Store
  | [], _ => []
  | (k, v) :: rest, key =>
      if k = key then dictErase rest key else (k, v) :: dictErase rest key

/-- Exceptions raised by `Config` store operations. -/
inductive ConfigErr where
  | valueError (msg : String)
  | projectExists (msg : String)
  | projectNotFound (msg : String)
deriving Repr, DecidableEq

/-- The dictionary value built by `Config.add_project`:
`asdict(instance)` updated with `project_name`, `added_at`,
`last_accessed`.  The two `datetime.now()` timestamps are parameters. -/
def projectDataOfInstance (inst : Instance)
    (projectName addedAt lastAccessed : String) : ProjectData :=
  { id := inst.id, name := inst.name, ip := inst.ip,
    provider := inst.provider, status := inst.status,
    created_at := inst.created_at, metadata := inst.metadata,
    project_name := projectName, added_at := addedAt,
    last_accessed := lastAccessed }

/-- `Config.add_project`: reject an empty or all-whitespace name, trim the
name, fail with `ProjectExistsError` when the key is present, otherwise
append the new record (assignment of a fresh key to a Python dict appends
in insertion order) and save. -/
def addProject (store : Store) (name : String) (inst : Instance)
    (addedAt lastAccessed : String) : Except ConfigErr Store :=
  if name = "" ∨ strip name = "" then
    .error (.valueError "Project name cannot be empty")
  else
    let n := strip name
    match dictLookup store n with
    | some _ => .error (.projectExists ("Project " ++ n ++ " already exists"))
    | none =>
        .ok (store ++ [(n, projectDataOfInstance inst n addedAt lastAccessed)])

/-- `Config.get_project`: `None` for an empty name, otherwise dict lookup
of the trimmed name; absence is a normal `None` result. -/
def getProject (store : Store) (name : String) : Option ProjectData :=
  if name = "" then none
  else dictLookup store (strip name)

/-- `Config.update_project`: reject an empty name, trim, fail with
`ProjectNotFoundError` when the key is absent, otherwise apply the updates
to the record, refresh `last_accessed` to `now`, and save. -/
def updateProject (store : Store) (name : String)
    (updates : ProjectData → ProjectData) (now : String) :
    Except ConfigErr Store :=
  if name = "" then .error (.valueError "Project name cannot be empty")
  else
    let n := strip name
    match dictLookup store n with
    | none => .error (.projectNotFound ("Project " ++ n ++ " not found"))
    | some _ =>
        .ok (dictSet store n (fun d => { updates d with last_accessed := now }))

/-- `Config.remove_project`: reject an empty name, trim, fail with
`ProjectNotFoundError` when the key is absent, otherwise delete the key
and save. -/
def removeProject (store : Store) (name : String) : Except ConfigErr Store :=
  if name = "" then .error (.valueError "Project name cannot be empty")
  else
    let n := strip name
    match dictLookup store n with
    | none => .error (.projectNotFound ("Project " ++ n ++ " not found"))
    | some _ => .ok (dictErase store n)

/-- The persisted document after running one store operation: on success
the saved document, on failure the raise happened before `save_projects`,
so the document on disk is the original one. -/
def persistedAfter (store : Store) (r : Except ConfigErr Store) : Store :=
  match r with
  | .ok s => s
  | .error _ => store

/-! ## Claim C9: listing order -/

/-- One summary row built by `Config.list_project_details`.  The source
reads the values with `dict.get` defaults; records written by
`add_project` always carry all the fields, which the typed `ProjectData`
makes intrinsic. -/
structure Summary where
  project_name : String
  status : String
  ip : String
  provider : String
  created_at : String
  last_accessed : String
deriving Repr, DecidableEq

/-- The summary projection of one `(name, data)` item. -/
def mkSummary (name : String) (d : ProjectData) : Summary :=
  { project_name := name, status := d.status, ip := d.ip,
    provider := d.provider, created_at := d.created_at,
    last_accessed := d.last_accessed }

/-- The order realised by `details.sort(key=lambda x: x.get("last_accessed", ""), reverse=True)`:
`a` comes no later than `b` when `a`'s key is no smaller. -/
def laGE (a b : Summary) : Prop := b.last_accessed ≤ a.last_accessed

instance : DecidableRel laGE :=
  fun a b => inferInstanceAs (Decidable (b.last_accessed ≤ a.last_accessed))

instance : IsTotal Summary laGE :=
  ⟨fun a b => le_total b.last_accessed a.last_accessed⟩

instance : IsTrans Summary laGE :=
  ⟨fun _ _ _ hab hbc => le_trans hbc hab⟩

/-- `Config.list_project_details`: the summary projection of every record
in document order, stable-sorted descending by `last_accessed`
(Python `list.sort` with `reverse=True` is a stable descending sort, as is
insertion sort with `laGE`). -/
def listProjectDetails (store : Store) : List Summary :=
  List.insertionSort laGE (store.map fun p => mkSummary p.1 p.2)

/-! ## Claim C1: the setup-completion poll

`SSHOperations.wait_for_setup_complete` runs `while True`: each iteration
runs `test -f /tmp/clwd-setup-complete` over SSH; exit code 0 returns
`True`; otherwise it checks `current_time - start_time > timeout` and
returns `False` on expiry, else sleeps 5s; but when `execute_command`
raises `SSHError` the handler only sleeps 5s and `continue`s — it never
reaches the timeout check.  The loop is modelled fuel-indexed precisely
because of this: `none` means the loop has not returned within `fuel`
iterations.  Elapsed time is the accumulated 5s sleeps, the quantity the
source's own timeout check measures (up to the bounded per-attempt
command time). -/

/-- Result of one remote one-shot command attempt as observed by the poll:
a completed command with its exit code, or a transport failure raising
`SSHError`. -/
inductive ProbeResult where
  | ok (returnCode : Int)
  | sshError
deriving Repr, DecidableEq

/-- The `while True` loop of `wait_for_setup_complete`, one constructor
per iteration of `fuel`; `i` counts attempts, `elapsed` the accumulated
sleep time at the point of the timeout check. -/
def waitForSetupCompleteAux (probe : Nat → ProbeResult) (timeout : Nat) :
    Nat → Nat → Nat → Option Bool
  | _, _, 0 => none
  | i, elapsed, fuel + 1 =>
    match probe i with
    | .ok rc =>
        if rc = 0 then some true
        else if elapsed > timeout then some false
        else waitForSetupCompleteAux probe timeout (i + 1) (elapsed + 5) fuel
    | .sshError => waitForSetupCompleteAux probe timeout (i + 1) (elapsed + 5) fuel

/-- `wait_for_setup_complete(timeout)`, run for at most `fuel` loop
iterations; `none` means it has not returned yet. -/
def waitForSetupComplete (probe : Nat → ProbeResult) (timeout fuel : Nat) :
    Option Bool :=
  waitForSetupCompleteAux probe timeout 0 0 fuel

/-! ## Claim C7: the SSH reachability poll

`HetznerProvider.wait_for_ssh` loops while `now - start < timeout`,
attempting a TCP connect to port 22 each round; on success it sleeps 5s
(settle delay) and returns `True`, on failure it sleeps 2s and retries;
when the guard fails it returns `False`.  `probe i` is the outcome of the
`i`-th connect attempt (exceptions count as failure, as in the source's
bare `except`); `elapsed` accumulates the sleeps. -/

/-- Outcome of the reachability poll: the returned boolean, the number of
connect attempts performed, and the accumulated sleep time on return. -/
structure SSHWaitResult where
  reachable : Bool
  attempts : Nat
  elapsed : Nat
deriving Repr, DecidableEq

/-- The `while` loop of `wait_for_ssh`. -/
def waitForSSHAux (probe : Nat → Bool) (timeout i elapsed : Nat) :
    SSHWaitResult :=
  if h : elapsed < timeout then
    if probe i then
      { reachable := true, attempts := i + 1, elapsed := elapsed + 5 }
    else waitForSSHAux probe timeout (i + 1) (elapsed + 2)
  else { reachable := false, attempts := i, elapsed := elapsed }
termination_by timeout - elapsed
decreasing_by simp_wf; omega

/-- `wait_for_ssh(ip, timeout)` with the connect outcomes abstracted as
`probe`. -/
def waitForSSH (probe : Nat → Bool) (timeout : Nat) : SSHWaitResult :=
  waitForSSHAux probe timeout 0 0

/-! ## Cloud-init payload: providers/hetzner.py

`_generate_cloud_init_script` joins six script stanzas with newlines and
base64-encodes the UTF-8 bytes of the result.  The stanza texts are
reproduced byte for byte (braces and apostrophes written with escape
sequences). -/

/-- UTF-8 encoding of one character (`str.encode("utf-8")`). -/
def utf8Bytes (c : Char) : List Nat :=
  let n := c.toNat
  if n < 0x80 then [n]
  else if n < 0x800 then [0xC0 + n / 0x40, 0x80 + n % 0x40]
  else if n < 0x10000 then
    [0xE0 + n / 0x1000, 0x80 + (n / 0x40) % 0x40, 0x80 + n % 0x40]
  else
    [0xF0 + n / 0x40000, 0x80 + (n / 0x1000) % 0x40,
     0x80 + (n / 0x40) % 0x40, 0x80 + n % 0x40]

/-- The standard base64 alphabet. -/
def b64Alphabet : List Char :=
  "ABCDEFGHIJKLMNOPQRSTUVWXYZabcdefghijklmnopqrstuvwxyz0123456789+/".data

/-- The base64 digit for a 6-bit value. -/
def b64Digit (n : Nat) : Char := b64Alphabet.getD n '='

/-- Base64 encoding of a byte list, three bytes to four digits with `=`
padding (`base64.b64encode`). -/
def b64Chunks : List Nat → List Char
  | [] => []
  | [a] => [b64Digit (a / 4), b64Digit (a % 4 * 16), '=', '=']
  | [a, b] =>
      [b64Digit (a / 4), b64Digit (a % 4 * 16 + b / 16), b64Digit (b % 16 * 4), '=']
  | a :: b :: c :: rest =>
      b64Digit (a / 4) :: b64Digit (a % 4 * 16 + b / 16) ::
      b64Digit (b % 16 * 4 + c / 64) :: b64Digit (c % 64) :: b64Chunks rest

/-- `base64.b64encode(script.encode("utf-8")).decode("ascii")`. -/
def b64encode (s : String) : String :=
  ⟨b64Chunks ((s.data.map utf8Bytes).flatten)⟩

/-- `_get_base_setup_script`. -/
def getBaseSetupScript : String :=
  "#!/bin/bash\nset -e\n\n# Update system and install base packages\napt-get update\napt-get install -y curl wget gnupg2 software-properties-common nginx ufw\n\n# Create working directory\nmkdir -p /app\ncd /app"

/-- `_get_nodejs_setup_script`. -/
def getNodejsSetupScript : String :=
  "\n# Install Node.js 20.x\ncurl -fsSL https://deb.nodesource.com/setup_20.x | bash -\napt-get install -y nodejs\n\n# Install Claude Code CLI\nnpm install -g @anthropic-ai/claude-code"

/-- `_get_claude_setup_script`: the comment-only stanza when no content is
provided (Python falsiness also treats the empty string as absent),
otherwise the heredoc embedding the content. -/
def getClaudeSetupScript (claude_json_content : Option String) : String :=
  match claude_json_content with
  | none => "# No Claude authentication provided"
  | some c =>
      if c = "" then "# No Claude authentication provided"
      else "\n# Set up Claude Code authentication\nmkdir -p /root/.claude\ncat > /root/.claude.json << \x27EOF\x27\n" ++ c ++ "\nEOF\nchmod 600 /root/.claude.json"

/-- `_get_nginx_setup_script`. -/
def getNginxSetupScript : String :=
  "\n# Configure Nginx for preview\ncat > /etc/nginx/sites-available/default << \x27EOF\x27\nserver \x7b\n    listen 80 default_server;\n    listen [::]:80 default_server;\n    \n    root /app;\n    index index.html;\n    server_name _;\n    \n    location / \x7b\n        try_files $uri $uri/ @proxy;\n    \x7d\n    \n    location @proxy \x7b\n        proxy_pass http://localhost:3000;\n        proxy_http_version 1.1;\n        proxy_set_header Upgrade $http_upgrade;\n        proxy_set_header Connection \x27upgrade\x27;\n        proxy_set_header Host $host;\n        proxy_cache_bypass $http_upgrade;\n    \x7d\n\x7d\nEOF\n\n# Create landing page\ncat > /app/index.html << \x27EOF\x27\n<!DOCTYPE html>\n<html>\n<head>\n    <title>Claude Code Instance</title>\n    <style>\n        body \x7b \n            font-family: system-ui; \n            text-align: center; \n            padding: 2rem;\n            background: #0a0a0a;\n            color: #e8e8e8;\n        \x7d\n        .status \x7b \n            color: #10b981; \n            font-size: 1.5rem; \n            margin-bottom: 1rem;\n        \x7d\n        .info \x7b color: #888; \x7d\n    </style>\n</head>\n<body>\n    <div class=\"status\">✓ Claude Code Instance Ready</div>\n    <div class=\"info\">SSH in to start developing with Claude Code</div>\n    <div class=\"info\">Working directory: /app</div>\n</body>\n</html>\nEOF\n\nsystemctl restart nginx"

/-- `_get_hardening_script`. -/
def getHardeningScript (hardening_level : String) : String :=
  if hardening_level = "none" then "# No security hardening applied"
  else if hardening_level = "minimal" then
    "\n# Minimal security hardening\nufw --force enable\nufw allow ssh\nufw allow http\nufw allow https\n\n# Basic SSH hardening\nsed -i \x27s/#PasswordAuthentication yes/PasswordAuthentication no/\x27 /etc/ssh/sshd_config\nsystemctl restart sshd"
  else if hardening_level = "full" then
    "\n# Full security hardening\nufw --force enable\nufw allow ssh\nufw allow http  \nufw allow https\n\n# SSH hardening\nsed -i \x27s/#PasswordAuthentication yes/PasswordAuthentication no/\x27 /etc/ssh/sshd_config\nsed -i \x27s/#PermitRootLogin yes/PermitRootLogin no/\x27 /etc/ssh/sshd_config\nsed -i \x27s/#MaxAuthTries 6/MaxAuthTries 3/\x27 /etc/ssh/sshd_config\n\n# Install fail2ban\napt-get install -y fail2ban\nsystemctl enable fail2ban\nsystemctl start fail2ban\n\nsystemctl restart sshd"
  else "# Unknown hardening level"

/-- `_get_completion_script`. -/
def getCompletionScript : String :=
  "\n# Mark setup as complete\ntouch /tmp/clwd-setup-complete\necho \"Setup completed at $(date)\" > /var/log/clwd-setup.log"

/-- `_generate_cloud_init_script(name, hardening_level, claude_json_content)`:
join the six stanzas with newlines and base64-encode.  As in the source,
`name` is not used by the payload. -/
def generateCloudInitScript (name hardening_level : String)
    (claude_json_content : Option String) : String :=
  b64encode (String.intercalate "\n"
    [getBaseSetupScript, getNodejsSetupScript,
     getClaudeSetupScript claude_json_content, getNginxSetupScript,
     getHardeningScript hardening_level, getCompletionScript])

/-! ## Orchestration: cli/main.py

`_init_async` and `_destroy_async` are modelled as pure functions over an
environment of collaborator outcomes, returning the list of orchestration
events performed (in order), the outcome, and the final persisted store.
`sys.exit(1)` and exceptions that escape the function are both terminal
outcomes; the distinction the claims need is kept in the outcome type. -/

/-- Result of `get_claude_authentication()`: the call may itself raise
(caught by the `except Exception` handler around the auth block), or
return the pair `(credentials_json, session_json)`, each possibly `None`. -/
inductive AuthOutcome where
  | raised
  | ok (credentials_json session_json : Option String)
deriving Repr, DecidableEq

/-- Orchestration events, in the order the orchestrator performs them. -/
inductive Event where
  | initProvider (provider : String)
  | prepareAuth
  | createInstance (name size hardening_level : String)
      (claude_json_content : Option String)
  | waitForSSHEv (timeout : Nat)
  | addProjectEv (name : String)
  | waitForSetupEv (timeout : Nat)
  | transferCredentials
  | destroyInstanceEv (instance_id : String)
  | removeProjectEv (name : String)
deriving Repr, DecidableEq

/-- Recogniser for instance-creation events. -/
def Event.isCreateEvent : Event → Bool
  | .createInstance _ _ _ _ => true
  | _ => false

/-- Terminal outcomes of `_init_async` (plus the `init` command wrapper):
success, the `sys.exit(1)` paths, and the raised-and-wrapped errors. -/
inductive InitOutcome where
  | success (inst : Instance)
  | exitUnsupportedProvider
  | exitProviderInitFailed (msg : String)
  | exitNoCredentials
  | exitNoSession
  | exitAuthError
  | errorProvider (msg : String)
  | errorStore (e : ConfigErr)
deriving Repr, DecidableEq

/-- Collaborator behaviour for one provisioning run: the provider
constructor, credential preparation, `create_instance`, the two polls, and
the `datetime.now()` values taken at `add_project` time. -/
structure InitEnv where
  providerInit : Except String Unit
  auth : AuthOutcome
  create : Except String Instance
  sshReady : Bool
  setupComplete : Bool
  addedAt : String
  lastAccessed : String

/-- Python truthiness of an optional string, as in
`if not credentials_json:` — both `None` and the empty string are falsy. -/
def truthy : Option String → Bool
  | none => false
  | some s => if s = "" then false else true

/-- `_init_async(ctx, name, provider, size, hardening, region, skip_auth)`.
Steps in source order: resolve the provider (unknown provider raises);
unless `skip_auth`, prepare credentials and fail fast on a falsy
credential or session (`if not credentials_json:` and
`if not session_json:` — Python truthiness, so `None` and `""` both
abort); call `create_instance` with `claude_json_content=None`;
`wait_for_ssh` (timeout 300) and fail if unreachable; `add_project`;
`wait_for_setup_complete` (timeout 300) and fail if incomplete — the
stored record stays; finally, when credentials were prepared
(`if not skip_auth and credentials_json:`, again truthiness), transfer
them best-effort (transfer failures only warn and never change the
outcome or the store, so the transfer is one event). -/
def initAsync (provider name size hardening_level : String) (skipAuth : Bool)
    (env : InitEnv) (store : Store) : List Event × InitOutcome × Store :=
  let ev0 : List Event := [.initProvider provider]
  if provider = "hetzner" then
    match env.providerInit with
    | .error m => (ev0, .exitProviderInitFailed m, store)
    | .ok _ =>
      let authStep : Except InitOutcome (Option String × Option String) :=
        if skipAuth then .ok (none, none)
        else
          match env.auth with
          | .raised => .error .exitAuthError
          | .ok c s =>
            if truthy c = false then .error .exitNoCredentials
            else if truthy s = false then .error .exitNoSession
            else .ok (c, s)
      let evAuth := if skipAuth then ev0 else ev0 ++ [.prepareAuth]
      match authStep with
      | .error o => (evAuth, o, store)
      | .ok (credentials_json, _session_json) =>
        let ev1 := evAuth ++ [.createInstance name size hardening_level none]
        match env.create with
        | .error m => (ev1, .errorProvider m, store)
        | .ok inst =>
          let ev2 := ev1 ++ [.waitForSSHEv 300]
          if env.sshReady then
            match addProject store name inst env.addedAt env.lastAccessed with
            | .error e => (ev2 ++ [.addProjectEv name], .errorStore e, store)
            | .ok store2 =>
              let ev3 := ev2 ++ [.addProjectEv name, .waitForSetupEv 300]
              if env.setupComplete then
                if !skipAuth && truthy credentials_json then
                  (ev3 ++ [.transferCredentials], .success inst, store2)
                else (ev3, .success inst, store2)
              else
                (ev3, .errorProvider "Instance setup did not complete after 5 minutes", store2)
          else
            (ev2, .errorProvider "Instance created but SSH is not available after 5 minutes", store)
  else (ev0, .exitUnsupportedProvider, store)

/-- Terminal outcomes of `_destroy_async`. -/
inductive DestroyOutcome where
  | success
  | exitUnsupportedProvider
  | errorProvider (msg : String)
  | errorStore (e : ConfigErr)
deriving Repr, DecidableEq

/-- `_destroy_async(ctx, name, instance)`: resolve the provider from the
stored record (unknown provider raises), call `destroy_instance` on the
stored id, and only on its success call `remove_project`; any raise leaves
the store untouched because `remove_project` is never reached (or itself
raises before saving). -/
def destroyAsync (name : String) (inst : Instance)
    (providerInit : Except String Unit)
    (destroyInstance : String → Except String Unit) (store : Store) :
    List Event × DestroyOutcome × Store :=
  let ev0 : List Event := [.initProvider inst.provider]
  if inst.provider = "hetzner" then
    match providerInit with
    | .error m => (ev0, .errorProvider m, store)
    | .ok _ =>
      let ev1 := ev0 ++ [.destroyInstanceEv inst.id]
      match destroyInstance inst.id with
      | .error m => (ev1, .errorProvider m, store)
      | .ok _ =>
        match removeProject store name with
        | .error e => (ev1 ++ [.removeProjectEv name], .errorStore e, store)
        | .ok store2 => (ev1 ++ [.removeProjectEv name], .success, store2)
  else (ev0, .exitUnsupportedProvider, store)

/-! ## Claim C10: the bootstrap payload is credential-free -/

/-- The `claude_json_content` arguments of the instance-creation calls in
a trace, in order. -/
def createArgsOf (tr : List Event) : List (Option String) :=
  tr.filterMap fun e =>
    match e with
    | .createInstance _ _ _ c => some c
    | _ => none

/-- The bootstrap payloads generated for the instance-creation calls in a
trace, in order, as `create_instance` derives them via
`_generate_cloud_init_script`. -/
def payloadsOf (tr : List Event) : List String :=
  tr.filterMap fun e =>
    match e with
    | .createInstance n _ h c => some (generateCloudInitScript n h c)
    | _ => none

/-! ### Dictionary lemmas -/

theorem dictLookup_append_of_none {s₁ s₂ : Store} {k : String}
    (h : dictLookup s₁ k = none) :
    dictLookup (s₁ ++ s₂) k = dictLookup s₂ k := by
  induction s₁ with
  | nil => simp
  | cons p rest ih =>
      obtain ⟨k', v⟩ := p
      by_cases hk : k' = k
      · simp [dictLookup, hk] at h
      · simp only [dictLookup, List.cons_append, if_neg hk] at h ⊢
        exact ih h

theorem dictLookup_erase_self (s : Store) (k : String) :
    dictLookup (dictErase s k) k = none := by
  induction s with
  | nil => simp [dictErase, dictLookup]
  | cons p rest ih =>
      obtain ⟨k', v⟩ := p
      by_cases hk : k' = k
      · simpa [dictErase, hk] using ih
      · simpa [dictErase, dictLookup, hk] using ih

theorem dictLookup_cons_self (k : String) (v : ProjectData) (s : Store) :
    dictLookup ((k, v) :: s) k = some v := by
  simp [dictLookup]

/-! ## Claim C3: Instance construction validation -/

/-- C3 counterexample: the claim says construction fails whenever any of
the five scalar fields is empty, but `__post_init__` never checks
`status`; constructing an instance with an empty `status` and the four
checked fields non-empty succeeds. -/
theorem mkInstance_empty_status_succeeds :
    mkInstance "12345" "clwd-demo-1" "192.0.2.10" "hetzner" "" "2025-01-01T00:00:00" []
      = .ok { id := "12345", name := "clwd-demo-1", ip := "192.0.2.10",
              provider := "hetzner", status := "",
              created_at := "2025-01-01T00:00:00", metadata := [] } := by
  rfl

/-- C3 (amended): construction fails exactly when one of the four checked
scalar fields (`id`, `name`, `ip`, `provider`) is empty, and succeeds iff
all four are non-empty; `status` is not validated. -/
theorem mkInstance_ok_iff (id name ip provider status created_at : String)
    (metadata : List (String × Option String)) :
    (mkInstance id name ip provider status created_at metadata).isOk = true ↔
      (id ≠ "" ∧ name ≠ "" ∧ ip ≠ "" ∧ provider ≠ "") := by
  unfold mkInstance
  split_ifs with h1 h2 h3 h4 <;> simp_all [Except.isOk, Except.toBool]

/-! ## Claim C5: failed store mutations are atomic -/

/-- C5: for every store state, `add_project` on a present key fails with
`ProjectExistsError`, and `update_project` / `remove_project` on an absent
key fail with `ProjectNotFoundError`; in each failure the persisted
document is unchanged, because the exception is raised before
`save_projects` is called. -/
theorem store_failed_mutations_atomic (store : Store)
    (nameP nameA : String) (inst : Instance)
    (addedAt lastAccessed now : String) (updates : ProjectData → ProjectData)
    (hP : (dictLookup store (strip nameP)).isSome = true)
    (hPne : strip nameP ≠ "")
    (hA : dictLookup store (strip nameA) = none)
    (hAne : nameA ≠ "") :
    (∃ m, addProject store nameP inst addedAt lastAccessed
        = .error (.projectExists m)) ∧
    persistedAfter store (addProject store nameP inst addedAt lastAccessed)
        = store ∧
    (∃ m, updateProject store nameA updates now
        = .error (.projectNotFound m)) ∧
    persistedAfter store (updateProject store nameA updates now) = store ∧
    (∃ m, removeProject store nameA = .error (.projectNotFound m)) ∧
    persistedAfter store (removeProject store nameA) = store := by
  have hPne' : nameP ≠ "" := by
    intro h
    exact hPne (by rw [h]; rfl)
  obtain ⟨d, hd⟩ := Option.isSome_iff_exists.mp hP
  refine ⟨⟨"Project " ++ strip nameP ++ " already exists", ?_⟩, ?_, ?_, ?_, ?_, ?_⟩ <;>
    simp [addProject, updateProject, removeProject, persistedAfter,
      hPne, hPne', hA, hAne, hd]

/-- C5 witness at a concrete store. -/
theorem store_failed_mutations_atomic_witness :
    (∃ m, addProject
        [("demo", projectDataOfInstance
            { id := "1", name := "clwd-demo-1", ip := "192.0.2.10",
              provider := "hetzner", status := "running",
              created_at := "t0", metadata := [] } "demo" "t1" "t1")]
        " demo "
        { id := "2", name := "clwd-demo-2", ip := "192.0.2.11",
          provider := "hetzner", status := "running",
          created_at := "t2", metadata := [] } "t3" "t3"
        = .error (.projectExists m)) ∧
    persistedAfter
        [("demo", projectDataOfInstance
            { id := "1", name := "clwd-demo-1", ip := "192.0.2.10",
              provider := "hetzner", status := "running",
              created_at := "t0", metadata := [] } "demo" "t1" "t1")]
        (addProject
          [("demo", projectDataOfInstance
              { id := "1", name := "clwd-demo-1", ip := "192.0.2.10",
                provider := "hetzner", status := "running",
                created_at := "t0", metadata := [] } "demo" "t1" "t1")]
          " demo "
          { id := "2", name := "clwd-demo-2", ip := "192.0.2.11",
            provider := "hetzner", status := "running",
            created_at := "t2", metadata := [] } "t3" "t3")
        = [("demo", projectDataOfInstance
            { id := "1", name := "clwd-demo-1", ip := "192.0.2.10",
              provider := "hetzner", status := "running",
              created_at := "t0", metadata := [] } "demo" "t1" "t1")] ∧
    (∃ m, updateProject
        [("demo", projectDataOfInstance
            { id := "1", name := "clwd-demo-1", ip := "192.0.2.10",
              provider := "hetzner", status := "running",
              created_at := "t0", metadata := [] } "demo" "t1" "t1")]
        "ghost" id "t4" = .error (.projectNotFound m)) ∧
    persistedAfter
        [("demo", projectDataOfInstance
            { id := "1", name := "clwd-demo-1", ip := "192.0.2.10",
              provider := "hetzner", status := "running",
              created_at := "t0", metadata := [] } "demo" "t1" "t1")]
        (updateProject
          [("demo", projectDataOfInstance
              { id := "1", name := "clwd-demo-1", ip := "192.0.2.10",
                provider := "hetzner", status := "running",
                created_at := "t0", metadata := [] } "demo" "t1" "t1")]
          "ghost" id "t4")
        = [("demo", projectDataOfInstance
            { id := "1", name := "clwd-demo-1", ip := "192.0.2.10",
              provider := "hetzner", status := "running",
              created_at := "t0", metadata := [] } "demo" "t1" "t1")] ∧
    (∃ m, removeProject
        [("demo", projectDataOfInstance
            { id := "1", name := "clwd-demo-1", ip := "192.0.2.10",
              provider := "hetzner", status := "running",
              created_at := "t0", metadata := [] } "demo" "t1" "t1")]
        "ghost" = .error (.projectNotFound m)) ∧
    persistedAfter
        [("demo", projectDataOfInstance
            { id := "1", name := "clwd-demo-1", ip := "192.0.2.10",
              provider := "hetzner", status := "running",
              created_at := "t0", metadata := [] } "demo" "t1" "t1")]
        (removeProject
          [("demo", projectDataOfInstance
              { id := "1", name := "clwd-demo-1", ip := "192.0.2.10",
                provider := "hetzner", status := "running",
                created_at := "t0", metadata := [] } "demo" "t1" "t1")]
          "ghost")
        = [("demo", projectDataOfInstance
            { id := "1", name := "clwd-demo-1", ip := "192.0.2.10",
              provider := "hetzner", status := "running",
              created_at := "t0", metadata := [] } "demo" "t1" "t1")] :=
  store_failed_mutations_atomic _ " demo " "ghost" _ "t3" "t3" "t4" id
    (by decide) (by decide) (by decide) (by decide)

/-! ## Claim C6: add/get/remove round trip with trimmed keys -/

/-- C6: for a valid name (non-empty after trimming) not yet in the store,
`add_project` succeeds, a subsequent `get_project` — with the same name or
any untrimmed variant of it — returns the stored record carrying exactly
the added instance's fields, and `remove_project` followed by
`get_project` returns absence. -/
theorem store_add_get_remove_roundtrip (store : Store) (name name2 : String)
    (inst : Instance) (addedAt lastAccessed : String)
    (h0 : strip name ≠ "") (h1 : dictLookup store (strip name) = none)
    (h2 : strip name2 = strip name) :
    ∃ store', addProject store name inst addedAt lastAccessed = .ok store' ∧
      getProject store' name2
        = some (projectDataOfInstance inst (strip name) addedAt lastAccessed) ∧
      ∃ store'', removeProject store' name2 = .ok store'' ∧
        getProject store'' name2 = none := by
  have hname : name ≠ "" := fun h => h0 (by rw [h]; rfl)
  have hname2 : name2 ≠ "" := fun h => h0 (by rw [← h2, h]; rfl)
  have hadd : addProject store name inst addedAt lastAccessed
      = .ok (store ++
          [(strip name, projectDataOfInstance inst (strip name) addedAt lastAccessed)]) := by
    simp [addProject, hname, h0, h1]
  refine ⟨_, hadd, ?_, ?_⟩
  · simp [getProject, hname2, h2, dictLookup_append_of_none h1,
      dictLookup_cons_self]
  · have hlook : dictLookup
        (store ++
          [(strip name, projectDataOfInstance inst (strip name) addedAt lastAccessed)])
        (strip name)
        = some (projectDataOfInstance inst (strip name) addedAt lastAccessed) := by
      rw [dictLookup_append_of_none h1]
      exact dictLookup_cons_self _ _ _
    refine ⟨dictErase
      (store ++
        [(strip name, projectDataOfInstance inst (strip name) addedAt lastAccessed)])
      (strip name2), ?_, ?_⟩
    · simp [removeProject, hname2, h2, hlook]
    · simp [getProject, hname2, h2, dictLookup_erase_self]

/-- C6 witness: add `" demo "` to the empty store, look it up as `"demo"`,
remove it, look it up again. -/
theorem store_add_get_remove_roundtrip_witness :
    ∃ store', addProject [] " demo "
        { id := "1", name := "clwd-demo-1", ip := "192.0.2.10",
          provider := "hetzner", status := "running",
          created_at := "t0", metadata := [] } "t1" "t1" = .ok store' ∧
      getProject store' "demo"
        = some (projectDataOfInstance
            { id := "1", name := "clwd-demo-1", ip := "192.0.2.10",
              provider := "hetzner", status := "running",
              created_at := "t0", metadata := [] } (strip " demo ") "t1" "t1") ∧
      ∃ store'', removeProject store' "demo" = .ok store'' ∧
        getProject store'' "demo" = none :=
  store_add_get_remove_roundtrip [] " demo " "demo" _ "t1" "t1"
    (by decide) (by decide) (by decide)

/-- C9: when the records have pairwise distinct `last_accessed` values,
the output of `list_project_details` is strictly descending in that
field (most recently touched first). -/
theorem listProjectDetails_sorted_desc (store : Store)
    (h : (store.map fun p => mkSummary p.1 p.2).Pairwise
      (fun a b => a.last_accessed ≠ b.last_accessed)) :
    (listProjectDetails store).Pairwise
      (fun a b => b.last_accessed < a.last_accessed) := by
  have hsorted : List.Pairwise laGE (listProjectDetails store) :=
    List.sorted_insertionSort laGE _
  have hperm : List.Perm (listProjectDetails store)
      (store.map fun p => mkSummary p.1 p.2) :=
    List.perm_insertionSort laGE _
  have hne : (listProjectDetails store).Pairwise
      (fun a b => a.last_accessed ≠ b.last_accessed) :=
    (hperm.pairwise_iff (fun hab => Ne.symm hab)).mpr h
  exact (hsorted.and hne).imp fun hab =>
    lt_of_le_of_ne hab.1 fun e => hab.2 e.symm

/-- C9 witness at a concrete two-record store. -/
theorem listProjectDetails_sorted_desc_witness :
    (listProjectDetails
      [("a", projectDataOfInstance
          { id := "1", name := "clwd-a-1", ip := "192.0.2.10",
            provider := "hetzner", status := "running",
            created_at := "t0", metadata := [] } "a" "t1" "2025-01-01"),
       ("b", projectDataOfInstance
          { id := "2", name := "clwd-b-1", ip := "192.0.2.11",
            provider := "hetzner", status := "running",
            created_at := "t0", metadata := [] } "b" "t1" "2025-06-01")]).Pairwise
      (fun a b => b.last_accessed < a.last_accessed) :=
  listProjectDetails_sorted_desc _ (by decide)

/-- C1: when every remote command attempt fails with `SSHError`, the poll
never returns — for every timeout and every iteration bound it is still
running — because the `except SSHError` handler re-enters the loop without
consulting the timeout.  This contradicts the claim (and the function's
own contract) that the poll returns failure once the bounded timeout
elapses. -/
theorem waitForSetupComplete_hangs_on_ssh_errors (timeout fuel : Nat) :
    waitForSetupComplete (fun _ => .sshError) timeout fuel = none := by
  suffices h : ∀ f i elapsed,
      waitForSetupCompleteAux (fun _ => .sshError) timeout i elapsed f = none from
    h fuel 0 0
  intro f
  induction f with
  | zero => intro i elapsed; rfl
  | succ n ih =>
      intro i elapsed
      simpa [waitForSetupCompleteAux] using ih (i + 1) (elapsed + 5)

/-- In contrast, on the non-raising path the timeout check does fire: a
probe that always completes with a non-zero exit code makes the poll
return `false` within `timeout + 1` iterations.  The non-termination of
`waitForSetupComplete_hangs_on_ssh_errors` is therefore specific to the
`SSHError` handler. -/
theorem waitForSetupComplete_ok_path_times_out (timeout : Nat) :
    waitForSetupComplete (fun _ => .ok 1) timeout (timeout + 2) = some false := by
  suffices h : ∀ f i elapsed, timeout < elapsed + 5 * f →
      waitForSetupCompleteAux (fun _ => .ok 1) timeout i elapsed (f + 1) = some false by
    exact h (timeout + 1) 0 0 (by omega)
  intro f
  induction f with
  | zero =>
      intro i elapsed h
      simp [waitForSetupCompleteAux, show elapsed > timeout by omega]
  | succ n ih =>
      intro i elapsed h
      by_cases hc : elapsed > timeout
      · simp [waitForSetupCompleteAux, hc]
      · simpa [waitForSetupCompleteAux, hc] using ih (i + 1) (elapsed + 5) (by omega)

theorem waitForSSHAux_succeeds (probe : Nat → Bool) (timeout : Nat) :
    ∀ n i elapsed, (∀ j, j < n → probe (i + j) = false) →
      probe (i + n) = true → elapsed + 2 * n < timeout →
      waitForSSHAux probe timeout i elapsed =
        { reachable := true, attempts := i + n + 1, elapsed := elapsed + 2 * n + 5 } := by
  intro n
  induction n with
  | zero =>
      intro i elapsed _ hs ht
      unfold waitForSSHAux
      rw [dif_pos (by omega)]
      simp at hs
      simp [hs]
  | succ m ih =>
      intro i elapsed hf hs ht
      unfold waitForSSHAux
      rw [dif_pos (by omega)]
      have h0 : probe i = false := by simpa using hf 0 (Nat.succ_pos m)
      rw [h0]
      simp only [Bool.false_eq_true, if_false]
      have hf' : ∀ j, j < m → probe (i + 1 + j) = false := by
        intro j hj
        rw [show i + 1 + j = i + (j + 1) by omega]
        exact hf (j + 1) (by omega)
      have hs' : probe (i + 1 + m) = true := by
        rw [show i + 1 + m = i + (m + 1) by omega]
        exact hs
      have := ih (i + 1) (elapsed + 2) hf' hs' (by omega)
      rw [this]
      congr 1 <;> omega

theorem waitForSSHAux_always_fails (probe : Nat → Bool) (timeout : Nat)
    (hq : ∀ i, probe i = false) :
    ∀ fuelBound i elapsed, timeout - elapsed ≤ fuelBound →
      (waitForSSHAux probe timeout i elapsed).reachable = false ∧
      timeout ≤ (waitForSSHAux probe timeout i elapsed).elapsed := by
  intro fb
  induction fb with
  | zero =>
      intro i elapsed h
      have hc : ¬ elapsed < timeout := by omega
      unfold waitForSSHAux
      rw [dif_neg hc]
      exact ⟨rfl, show timeout ≤ elapsed by omega⟩
  | succ m ih =>
      intro i elapsed h
      by_cases hc : elapsed < timeout
      · unfold waitForSSHAux
        rw [dif_pos hc, hq i]
        simp only [Bool.false_eq_true, if_false]
        exact ih (i + 1) (elapsed + 2) (by omega)
      · unfold waitForSSHAux
        rw [dif_neg hc]
        exact ⟨rfl, show timeout ≤ elapsed by omega⟩

/-- C7: a probe failing on the first `n` attempts and succeeding on
attempt `n` (0-indexed: the `(n+1)`-th attempt) within the timeout makes
the poll return success after exactly `n + 1` attempts — hence at least
`n + 1`, never fewer — while a permanently failing probe makes the poll
return failure with accumulated wait at least the configured timeout,
never before it has elapsed. -/
theorem wait_for_ssh_polling (probe q : Nat → Bool) (timeout n : Nat)
    (hf : ∀ j, j < n → probe j = false) (hs : probe n = true)
    (ht : 2 * n < timeout) (hq : ∀ i, q i = false) :
    waitForSSH probe timeout =
      { reachable := true, attempts := n + 1, elapsed := 2 * n + 5 } ∧
    (waitForSSH q timeout).reachable = false ∧
    timeout ≤ (waitForSSH q timeout).elapsed := by
  refine ⟨?_, ?_, ?_⟩
  · have := waitForSSHAux_succeeds probe timeout n 0 0
      (by simpa using hf) (by simpa using hs) (by omega)
    simpa [waitForSSH] using this
  · exact (waitForSSHAux_always_fails q timeout hq timeout 0 0 (by omega)).1
  · exact (waitForSSHAux_always_fails q timeout hq timeout 0 0 (by omega)).2

/-- C7 witness: success on the third attempt with timeout 10, and a
permanently failing probe with timeout 10. -/
theorem wait_for_ssh_polling_witness :
    waitForSSH (fun j => decide (j = 2)) 10 =
      { reachable := true, attempts := 3, elapsed := 9 } ∧
    (waitForSSH (fun _ => false) 10).reachable = false ∧
    10 ≤ (waitForSSH (fun _ => false) 10).elapsed :=
  wait_for_ssh_polling (fun j => decide (j = 2)) (fun _ => false) 10 2
    (by decide) (by decide) (by decide) (fun _ => rfl)

/-! ## Claim C2: fail-fast credential policy -/

/-- C2: in a run with `skip_auth` false whose credential preparation
returns no credential or no session, the orchestrator exits before any
provider call: the trace contains zero instance-creation events, the
outcome is the corresponding fail-fast exit, and the store is untouched.
No assumption is made on the provider argument or its constructor: every
such run performs zero `create_instance` calls. -/
theorem provisioning_fail_fast_no_create
    (provider name size hardening_level : String)
    (env : InitEnv) (store : Store) (c s : Option String)
    (hauth : env.auth = .ok c s) (hmiss : c = none ∨ s = none) :
    (initAsync provider name size hardening_level false env store).1.countP
        Event.isCreateEvent = 0 ∧
    ((initAsync provider name size hardening_level false env store).2.1
        = .exitNoCredentials ∨
     (initAsync provider name size hardening_level false env store).2.1
        = .exitNoSession ∨
     (initAsync provider name size hardening_level false env store).2.1
        = .exitUnsupportedProvider ∨
     (∃ m, (initAsync provider name size hardening_level false env store).2.1
        = .exitProviderInitFailed m)) ∧
    (initAsync provider name size hardening_level false env store).2.2 = store := by
  by_cases hp : provider = "hetzner"
  · cases hpi : env.providerInit with
    | error m =>
        refine ⟨?_, ?_, ?_⟩ <;>
          simp [initAsync, hp, hpi, List.countP, List.countP.go, Event.isCreateEvent]
    | ok u =>
        rcases hmiss with rfl | rfl
        · refine ⟨?_, ?_, ?_⟩ <;>
            simp [initAsync, hp, hpi, hauth, truthy, List.countP, List.countP.go,
              Event.isCreateEvent]
        · cases c with
          | none =>
              refine ⟨?_, ?_, ?_⟩ <;>
                simp [initAsync, hp, hpi, hauth, truthy, List.countP,
                  List.countP.go, Event.isCreateEvent]
          | some cj =>
              by_cases hcj : cj = ""
              · refine ⟨?_, ?_, ?_⟩ <;>
                  simp [initAsync, hp, hpi, hauth, truthy, hcj, List.countP,
                    List.countP.go, Event.isCreateEvent]
              · refine ⟨?_, ?_, ?_⟩ <;>
                  simp [initAsync, hp, hpi, hauth, truthy, hcj, List.countP,
                    List.countP.go, Event.isCreateEvent]
  · refine ⟨?_, ?_, ?_⟩ <;>
      simp [initAsync, hp, List.countP, List.countP.go, Event.isCreateEvent]

/-- C2 witness: credential preparation finds neither credential nor
session. -/
theorem provisioning_fail_fast_no_create_witness :
    (initAsync "hetzner" "demo" "small" "none" false
        { providerInit := .ok (), auth := .ok none none,
          create := .error "unreached", sshReady := false,
          setupComplete := false, addedAt := "t1", lastAccessed := "t1" }
        []).1.countP Event.isCreateEvent = 0 ∧
    ((initAsync "hetzner" "demo" "small" "none" false
        { providerInit := .ok (), auth := .ok none none,
          create := .error "unreached", sshReady := false,
          setupComplete := false, addedAt := "t1", lastAccessed := "t1" }
        []).2.1 = .exitNoCredentials ∨
     (initAsync "hetzner" "demo" "small" "none" false
        { providerInit := .ok (), auth := .ok none none,
          create := .error "unreached", sshReady := false,
          setupComplete := false, addedAt := "t1", lastAccessed := "t1" }
        []).2.1 = .exitNoSession ∨
     (initAsync "hetzner" "demo" "small" "none" false
        { providerInit := .ok (), auth := .ok none none,
          create := .error "unreached", sshReady := false,
          setupComplete := false, addedAt := "t1", lastAccessed := "t1" }
        []).2.1 = .exitUnsupportedProvider ∨
     (∃ m, (initAsync "hetzner" "demo" "small" "none" false
        { providerInit := .ok (), auth := .ok none none,
          create := .error "unreached", sshReady := false,
          setupComplete := false, addedAt := "t1", lastAccessed := "t1" }
        []).2.1 = .exitProviderInitFailed m)) ∧
    (initAsync "hetzner" "demo" "small" "none" false
        { providerInit := .ok (), auth := .ok none none,
          create := .error "unreached", sshReady := false,
          setupComplete := false, addedAt := "t1", lastAccessed := "t1" }
        []).2.2 = [] :=
  provisioning_fail_fast_no_create "hetzner" "demo" "small" "none"
    _ [] none none rfl (Or.inl rfl)

/-! ## Claim C8: the record is committed between the two polls -/

/-- C8: in a run that passes credential preparation (or skips it), creates
the instance, and reaches SSH readiness, the trace commits the project
record immediately after the reachability wait and immediately before the
setup-completion wait; hence a run whose setup wait then fails still ends
with the record persisted in the store, discoverable under its trimmed
name.  Passing credential preparation means both blobs are truthy
(non-`None` and non-empty, since `if not credentials_json:` and
`if not session_json:` abort otherwise); `keychain.py` can only produce
such blobs when it produces any (`json.dumps` of a non-empty dict, or
file content that parsed as JSON, is never the empty string). -/
theorem provisioning_commit_between_ssh_and_setup
    (name size hardening_level : String) (skipAuth : Bool)
    (env : InitEnv) (store : Store) (inst : Instance) (cj sj : String)
    (hpi : env.providerInit = .ok ())
    (hauth : skipAuth = true ∨
      (env.auth = .ok (some cj) (some sj) ∧ cj ≠ "" ∧ sj ≠ ""))
    (hcreate : env.create = .ok inst)
    (hssh : env.sshReady = true)
    (hsetup : env.setupComplete = false)
    (hn : strip name ≠ "")
    (hfree : dictLookup store (strip name) = none) :
    ∃ pre,
      (initAsync "hetzner" name size hardening_level skipAuth env store).1
        = pre ++ [.waitForSSHEv 300, .addProjectEv name, .waitForSetupEv 300] ∧
      (initAsync "hetzner" name size hardening_level skipAuth env store).2.1
        = .errorProvider "Instance setup did not complete after 5 minutes" ∧
      dictLookup
        (initAsync "hetzner" name size hardening_level skipAuth env store).2.2
        (strip name)
        = some (projectDataOfInstance inst (strip name) env.addedAt env.lastAccessed) := by
  have hname : name ≠ "" := fun h => hn (by rw [h]; rfl)
  have hadd : addProject store name inst env.addedAt env.lastAccessed
      = .ok (store ++
          [(strip name,
            projectDataOfInstance inst (strip name) env.addedAt env.lastAccessed)]) := by
    simp [addProject, hname, hn, hfree]
  have hlook : dictLookup
      (store ++
        [(strip name,
          projectDataOfInstance inst (strip name) env.addedAt env.lastAccessed)])
      (strip name)
      = some (projectDataOfInstance inst (strip name) env.addedAt env.lastAccessed) := by
    rw [dictLookup_append_of_none hfree]
    exact dictLookup_cons_self _ _ _
  by_cases hsk : skipAuth = true
  · refine ⟨[.initProvider "hetzner",
      .createInstance name size hardening_level none], ?_, ?_, ?_⟩ <;>
      simp [initAsync, hsk, hpi, hcreate, hssh, hsetup, hadd, hlook]
  · have hauth2 : env.auth = .ok (some cj) (some sj) ∧ cj ≠ "" ∧ sj ≠ "" := by
      rcases hauth with h | h
      · exact absurd h hsk
      · exact h
    obtain ⟨hauth3, hcj, hsj⟩ := hauth2
    refine ⟨[.initProvider "hetzner", .prepareAuth,
      .createInstance name size hardening_level none], ?_, ?_, ?_⟩ <;>
      simp [initAsync, hsk, hpi, hauth3, truthy, hcj, hsj, hcreate, hssh,
        hsetup, hadd, hlook]

/-- C8 witness: a fully-credentialed run whose setup poll fails. -/
theorem provisioning_commit_between_ssh_and_setup_witness :
    ∃ pre,
      (initAsync "hetzner" "demo" "small" "none" false
          { providerInit := .ok (), auth := .ok (some "cred") (some "sess"),
            create := .ok
              { id := "1", name := "clwd-demo-1", ip := "192.0.2.10",
                provider := "hetzner", status := "running",
                created_at := "t0", metadata := [] },
            sshReady := true, setupComplete := false,
            addedAt := "t1", lastAccessed := "t1" } []).1
        = pre ++ [.waitForSSHEv 300, .addProjectEv "demo", .waitForSetupEv 300] ∧
      (initAsync "hetzner" "demo" "small" "none" false
          { providerInit := .ok (), auth := .ok (some "cred") (some "sess"),
            create := .ok
              { id := "1", name := "clwd-demo-1", ip := "192.0.2.10",
                provider := "hetzner", status := "running",
                created_at := "t0", metadata := [] },
            sshReady := true, setupComplete := false,
            addedAt := "t1", lastAccessed := "t1" } []).2.1
        = .errorProvider "Instance setup did not complete after 5 minutes" ∧
      dictLookup
        (initAsync "hetzner" "demo" "small" "none" false
          { providerInit := .ok (), auth := .ok (some "cred") (some "sess"),
            create := .ok
              { id := "1", name := "clwd-demo-1", ip := "192.0.2.10",
                provider := "hetzner", status := "running",
                created_at := "t0", metadata := [] },
            sshReady := true, setupComplete := false,
            addedAt := "t1", lastAccessed := "t1" } []).2.2
        (strip "demo")
        = some (projectDataOfInstance
            { id := "1", name := "clwd-demo-1", ip := "192.0.2.10",
              provider := "hetzner", status := "running",
              created_at := "t0", metadata := [] } (strip "demo") "t1" "t1") :=
  provisioning_commit_between_ssh_and_setup "demo" "small" "none" false
    _ [] _ "cred" "sess" rfl (Or.inr ⟨rfl, by decide, by decide⟩) rfl rfl rfl
    (by decide) rfl

/-- C10: every `create_instance` call in a provisioning run passes
`claude_json_content=None`, and two runs that differ only in the prepared
credential and session content are indistinguishable — same events, same
outcome, same store — so in particular they generate identical bootstrap
payloads.  Prepared content is non-empty: `keychain.py` returns either
`None` or a non-empty string for each blob (`json.dumps` of a non-empty
dict, or file content that parsed as JSON, is never the empty string), and
an empty blob would abort the run at the fail-fast check before any
provider call. -/
theorem bootstrap_payload_credential_free
    (provider name size hardening_level : String) (skipAuth : Bool)
    (env : InitEnv) (store : Store) (c1 s1 c2 s2 : String)
    (hc1 : c1 ≠ "") (hs1 : s1 ≠ "") (hc2 : c2 ≠ "") (hs2 : s2 ≠ "") :
    (createArgsOf (initAsync provider name size hardening_level skipAuth
        { env with auth := .ok (some c1) (some s1) } store).1).all
      Option.isNone = true ∧
    initAsync provider name size hardening_level skipAuth
        { env with auth := .ok (some c1) (some s1) } store
      = initAsync provider name size hardening_level skipAuth
        { env with auth := .ok (some c2) (some s2) } store ∧
    payloadsOf (initAsync provider name size hardening_level skipAuth
        { env with auth := .ok (some c1) (some s1) } store).1
      = payloadsOf (initAsync provider name size hardening_level skipAuth
        { env with auth := .ok (some c2) (some s2) } store).1 := by
  obtain ⟨pi, auth0, create, sshReady, setupComplete, addedAt, lastAccessed⟩ := env
  have key :
      (createArgsOf (initAsync provider name size hardening_level skipAuth
        { providerInit := pi, auth := .ok (some c1) (some s1), create := create,
          sshReady := sshReady, setupComplete := setupComplete,
          addedAt := addedAt, lastAccessed := lastAccessed } store).1).all
        Option.isNone = true ∧
      initAsync provider name size hardening_level skipAuth
        { providerInit := pi, auth := .ok (some c1) (some s1), create := create,
          sshReady := sshReady, setupComplete := setupComplete,
          addedAt := addedAt, lastAccessed := lastAccessed } store
      = initAsync provider name size hardening_level skipAuth
        { providerInit := pi, auth := .ok (some c2) (some s2), create := create,
          sshReady := sshReady, setupComplete := setupComplete,
          addedAt := addedAt, lastAccessed := lastAccessed } store := by
    by_cases hp : provider = "hetzner" <;>
      cases pi <;> cases skipAuth <;> cases create <;>
        cases sshReady <;> cases setupComplete <;>
          simp [initAsync, hp, truthy, hc1, hs1, hc2, hs2, createArgsOf] <;>
            rename_i u inst <;>
              cases hadd : addProject store name inst addedAt lastAccessed <;>
                simp [hadd]
  exact ⟨key.1, key.2, by rw [key.2]⟩

/-- C10 witness: two fully-provisioned runs whose prepared credential and
session blobs differ. -/
theorem bootstrap_payload_credential_free_witness :
    (createArgsOf (initAsync "hetzner" "demo" "small" "none" false
        { providerInit := .ok (), auth := .ok (some "credA") (some "sessA"),
          create := .ok
            { id := "1", name := "clwd-demo-1", ip := "192.0.2.10",
              provider := "hetzner", status := "running",
              created_at := "t0", metadata := [] },
          sshReady := true, setupComplete := true,
          addedAt := "t1", lastAccessed := "t1" } []).1).all
      Option.isNone = true ∧
    initAsync "hetzner" "demo" "small" "none" false
        { providerInit := .ok (), auth := .ok (some "credA") (some "sessA"),
          create := .ok
            { id := "1", name := "clwd-demo-1", ip := "192.0.2.10",
              provider := "hetzner", status := "running",
              created_at := "t0", metadata := [] },
          sshReady := true, setupComplete := true,
          addedAt := "t1", lastAccessed := "t1" } []
      = initAsync "hetzner" "demo" "small" "none" false
        { providerInit := .ok (), auth := .ok (some "credB") (some "sessB"),
          create := .ok
            { id := "1", name := "clwd-demo-1", ip := "192.0.2.10",
              provider := "hetzner", status := "running",
              created_at := "t0", metadata := [] },
          sshReady := true, setupComplete := true,
          addedAt := "t1", lastAccessed := "t1" } [] ∧
    payloadsOf (initAsync "hetzner" "demo" "small" "none" false
        { providerInit := .ok (), auth := .ok (some "credA") (some "sessA"),
          create := .ok
            { id := "1", name := "clwd-demo-1", ip := "192.0.2.10",
              provider := "hetzner", status := "running",
              created_at := "t0", metadata := [] },
          sshReady := true, setupComplete := true,
          addedAt := "t1", lastAccessed := "t1" } []).1
      = payloadsOf (initAsync "hetzner" "demo" "small" "none" false
        { providerInit := .ok (), auth := .ok (some "credB") (some "sessB"),
          create := .ok
            { id := "1", name := "clwd-demo-1", ip := "192.0.2.10",
              provider := "hetzner", status := "running",
              created_at := "t0", metadata := [] },
          sshReady := true, setupComplete := true,
          addedAt := "t1", lastAccessed := "t1" } []).1 :=
  bootstrap_payload_credential_free "hetzner" "demo" "small" "none" false
    { providerInit := .ok (), auth := .ok (some "credA") (some "sessA"),
      create := .ok
        { id := "1", name := "clwd-demo-1", ip := "192.0.2.10",
          provider := "hetzner", status := "running",
          created_at := "t0", metadata := [] },
      sshReady := true, setupComplete := true,
      addedAt := "t1", lastAccessed := "t1" } []
    "credA" "sessA" "credB" "sessB"
    (by decide) (by decide) (by decide) (by decide)

/-! ## Claim C4: destruction removes the record only after provider success -/

/-- C4: when the provider-side destroy of the stored instance id fails
(for example with `InstanceNotFoundError` on an unknown id), the project
record is still present in the store afterward and the store is unchanged;
and in any run whatsoever, the persisted store changes only if the
provider destroy succeeded. -/
theorem destroy_removes_only_after_provider_success
    (name : String) (inst : Instance) (pini : Except String Unit)
    (destroyO : String → Except String Unit) (store : Store)
    (d : ProjectData) (m : String)
    (hfail : destroyO inst.id = .error m)
    (hpresent : dictLookup store (strip name) = some d) :
    (destroyAsync name inst pini destroyO store).2.2 = store ∧
    dictLookup (destroyAsync name inst pini destroyO store).2.2 (strip name)
      = some d ∧
    (∀ (inst2 : Instance) (pini2 : Except String Unit)
        (dO : String → Except String Unit) (st : Store) (nm : String),
      (destroyAsync nm inst2 pini2 dO st).2.2 ≠ st → dO inst2.id = .ok ()) := by
  have hsame : (destroyAsync name inst pini destroyO store).2.2 = store := by
    by_cases hp : inst.provider = "hetzner"
    · cases hpi : pini with
      | error m2 => simp [destroyAsync, hp, hpi]
      | ok u => simp [destroyAsync, hp, hpi, hfail]
    · simp [destroyAsync, hp]
  refine ⟨hsame, by rw [hsame]; exact hpresent, ?_⟩
  intro inst2 pini2 dO st nm hne
  by_cases hp : inst2.provider = "hetzner"
  · cases hpi : pini2 with
    | error m2 => exact absurd (by simp [destroyAsync, hp, hpi]) hne
    | ok u =>
        cases hd : dO inst2.id with
        | error m2 => exact absurd (by simp [destroyAsync, hp, hpi, hd]) hne
        | ok u2 => cases u2; rfl
  · exact absurd (by simp [destroyAsync, hp]) hne

/-- C4 witness: provider destroy fails with an instance-not-found error on
a store holding the project. -/
theorem destroy_removes_only_after_provider_success_witness :
    (destroyAsync "demo"
        { id := "999", name := "clwd-demo-1", ip := "192.0.2.10",
          provider := "hetzner", status := "running",
          created_at := "t0", metadata := [] }
        (.ok ()) (fun _ => .error "Instance not found: 999")
        [("demo", projectDataOfInstance
            { id := "999", name := "clwd-demo-1", ip := "192.0.2.10",
              provider := "hetzner", status := "running",
              created_at := "t0", metadata := [] } "demo" "t1" "t1")]).2.2
      = [("demo", projectDataOfInstance
            { id := "999", name := "clwd-demo-1", ip := "192.0.2.10",
              provider := "hetzner", status := "running",
              created_at := "t0", metadata := [] } "demo" "t1" "t1")] ∧
    dictLookup
      (destroyAsync "demo"
        { id := "999", name := "clwd-demo-1", ip := "192.0.2.10",
          provider := "hetzner", status := "running",
          created_at := "t0", metadata := [] }
        (.ok ()) (fun _ => .error "Instance not found: 999")
        [("demo", projectDataOfInstance
            { id := "999", name := "clwd-demo-1", ip := "192.0.2.10",
              provider := "hetzner", status := "running",
              created_at := "t0", metadata := [] } "demo" "t1" "t1")]).2.2
      (strip "demo")
      = some (projectDataOfInstance
          { id := "999", name := "clwd-demo-1", ip := "192.0.2.10",
            provider := "hetzner", status := "running",
            created_at := "t0", metadata := [] } "demo" "t1" "t1") ∧
    (∀ (inst2 : Instance) (pini2 : Except String Unit)
        (dO : String → Except String Unit) (st : Store) (nm : String),
      (destroyAsync nm inst2 pini2 dO st).2.2 ≠ st → dO inst2.id = .ok ()) :=
  destroy_removes_only_after_provider_success "demo" _ (.ok ())
    (fun _ => .error "Instance not found: 999") _ _ "Instance not found: 999"
    rfl (by decide)

end Clwd
